import Mathlib

/-!
Shallow embedding of the `optic` / `observex` one-call auto-instrumentation
SDK (the two packages are near-duplicate rebrandings of the same logic; the
`optic` package is embedded, with the `OPTIC_*` environment-variable names).

Modelled source files:
* `src/optic/config.py` — `OpticConfig` and `OpticConfig.from_env`;
* `src/optic/_core.py` — module globals `_initialized`, `_tracer_provider`,
  `_meter_provider`, `_logger_provider` and the functions `init`,
  `shutdown`, `is_initialized`;
* `src/observex/instruments.py` — `INSTRUMENTORS` and `auto_instrument`;
* `src/observex/system_metrics.py` — the three observation callbacks of
  `start_system_metrics`.

Python dynamic values that can flow into configuration fields are modelled
by `PyVal`; Python truthiness (`if x:`, `not x`) by `pyTruthy`.  External
collaborators (the OTLP exporters, the provider objects, `importlib`, the
instrumentor classes, the `psutil` probes) are modelled by explicit
behaviour parameters ("worlds") saying which external call raises, since
the repository delegates all of their internals.  Side effects that the
claims talk about (configuration resolution, exporter/provider
construction, sampler start, discovery, handler installation) are recorded
in an explicit effect trace.
-/

namespace Optic

/-- Python runtime values that the configuration machinery passes around:
`vnone` is Python `None`, the rest cover the kinds of values the config
fields hold (strings, bools, ints, the float sample interval, string
lists). -/
inductive PyVal where
  | vnone
  | vbool (b : Bool)
  | vint (n : Int)
  | vfloat (q : Rat)
  | vstr (s : String)
  | vlist (xs : List String)
deriving DecidableEq, Repr

/-- Python truthiness, as used by `if x:` and `not x` in the source:
`None`, `False`, `0`, `0.0`, `""` and `[]` are falsy. -/
def pyTruthy : PyVal → Bool
  | .vnone => false
  | .vbool b => b
  | .vint n => n != 0
  | .vfloat q => q != 0
  | .vstr s => s != ""
  | .vlist xs => !xs.isEmpty

/-- The process environment: an association list of set variables.
`os.getenv` of an unset variable yields the supplied default; a variable
set to the empty string is set (and shadows any fallback). -/
def Env := List (String × String)

/-- `os.getenv(name, default)`. -/
def getenv (e : Env) (name default : String) : String :=
  match List.lookup name e with
  | some v => v
  | none => default

/-- `OpticConfig` (src/optic/config.py): one field per dataclass field.
Fields hold `PyVal` because `from_env` applies overrides with `setattr`,
which is untyped in Python. -/
structure OpticConfig where
  api_key : PyVal
  service_name : PyVal
  endpoint : PyVal
  environment : PyVal
  service_version : PyVal
  auto_instrument : PyVal
  enable_traces : PyVal
  enable_metrics : PyVal
  enable_logs : PyVal
  enable_system_metrics : PyVal
  system_metrics_interval_sec : PyVal
  export_interval_ms : PyVal
  log_level : PyVal
  excluded_urls : PyVal
deriving DecidableEq, Repr

/-- The dataclass defaults of `OpticConfig` (src/optic/config.py): endpoint
`http://localhost:8080`, environment `local`, every enable flag true,
sample interval 15 s, export interval 10000 ms, log level `INFO`, no
excluded URLs. -/
def defaultConfig : OpticConfig where
  api_key := .vstr ""
  service_name := .vstr ""
  endpoint := .vstr "http://localhost:8080"
  environment := .vstr "local"
  service_version := .vstr ""
  auto_instrument := .vbool true
  enable_traces := .vbool true
  enable_metrics := .vbool true
  enable_logs := .vbool true
  enable_system_metrics := .vbool true
  system_metrics_interval_sec := .vfloat 15
  export_interval_ms := .vint 10000
  log_level := .vstr "INFO"
  excluded_urls := .vlist []

/-- `setattr(cfg, key, value)` guarded by `hasattr(cfg, key)` as in the
override loop of `OpticConfig.from_env`: a key naming one of the fourteen
dataclass fields replaces that field, any other key leaves the config
unchanged. -/
def setattr (c : OpticConfig) (k : String) (v : PyVal) : OpticConfig :=
  if k = "api_key" then { c with api_key := v }
  else if k = "service_name" then { c with service_name := v }
  else if k = "endpoint" then { c with endpoint := v }
  else if k = "environment" then { c with environment := v }
  else if k = "service_version" then { c with service_version := v }
  else if k = "auto_instrument" then { c with auto_instrument := v }
  else if k = "enable_traces" then { c with enable_traces := v }
  else if k = "enable_metrics" then { c with enable_metrics := v }
  else if k = "enable_logs" then { c with enable_logs := v }
  else if k = "enable_system_metrics" then { c with enable_system_metrics := v }
  else if k = "system_metrics_interval_sec" then { c with system_metrics_interval_sec := v }
  else if k = "export_interval_ms" then { c with export_interval_ms := v }
  else if k = "log_level" then { c with log_level := v }
  else if k = "excluded_urls" then { c with excluded_urls := v }
  else c

/-- `OpticConfig.from_env(**overrides)` (src/optic/config.py): build the
config from the environment (SDK-specific variable, then generic fallback,
then dataclass default) and then apply each override with `setattr` in
order. -/
def OpticConfig.from_env (e : Env) (overrides : List (String × PyVal)) : OpticConfig :=
  let cfg : OpticConfig :=
    { defaultConfig with
      api_key := .vstr (getenv e "OPTIC_API_KEY" (getenv e "OTEL_API_KEY" ""))
      service_name := .vstr (getenv e "OPTIC_SERVICE_NAME" (getenv e "OTEL_SERVICE_NAME" ""))
      endpoint := .vstr (getenv e "OPTIC_ENDPOINT"
        (getenv e "OTEL_EXPORTER_OTLP_ENDPOINT" "http://localhost:8080"))
      environment := .vstr (getenv e "OPTIC_ENVIRONMENT" "local")
      service_version := .vstr (getenv e "OPTIC_SERVICE_VERSION" "") }
  overrides.foldl (fun c kv => setattr c kv.1 kv.2) cfg

/-- The ASCII fragment of Python `str.upper()`: charwise `Char.toUpper`.
It agrees with Python exactly on ASCII strings; Python's full Unicode
case mapping (e.g. U+0131 uppercasing to `I`) is part of the Python
runtime, not of this repository, and is modelled as the `upper`
parameter of `handlerLevel` below.  This fragment serves to instantiate
that parameter on concrete ASCII inputs. -/
def asciiUpper (s : String) : String :=
  String.mk (s.data.map Char.toUpper)

/-- The `log_levels` dict of `init` (src/optic/_core.py lines 117-118),
with the numeric values of `logging.DEBUG` etc. -/
def log_levels : List (String × Nat) :=
  [("DEBUG", 10), ("INFO", 20), ("WARNING", 30), ("ERROR", 40)]

/-- `log_levels.get(cfg.log_level.upper(), logging.INFO)`
(src/optic/_core.py line 119): the level of the Python-logging bridge
handler installed by `init`.  The `.upper()` call is the Python
runtime's Unicode uppercase mapping, external to this repository, so it
is passed in as the function `upper`; `asciiUpper` is its ASCII
fragment. -/
def handlerLevel (upper : String → String) (s : String) : Nat :=
  (List.lookup (upper s) log_levels).getD 20

/-- The `INSTRUMENTORS` table of src/observex/instruments.py: library name
mapped to the module:class path of its OTel instrumentor. -/
def INSTRUMENTORS : List (String × String) :=
  [ ("flask", "opentelemetry.instrumentation.flask:FlaskInstrumentor"),
    ("django", "opentelemetry.instrumentation.django:DjangoInstrumentor"),
    ("fastapi", "opentelemetry.instrumentation.fastapi:FastAPIInstrumentor"),
    ("requests", "opentelemetry.instrumentation.requests:RequestsInstrumentor"),
    ("urllib3", "opentelemetry.instrumentation.urllib3:URLLib3Instrumentor"),
    ("sqlalchemy", "opentelemetry.instrumentation.sqlalchemy:SQLAlchemyInstrumentor"),
    ("pymysql", "opentelemetry.instrumentation.pymysql:PyMySQLInstrumentor"),
    ("psycopg2", "opentelemetry.instrumentation.psycopg2:Psycopg2Instrumentor"),
    ("redis", "opentelemetry.instrumentation.redis:RedisInstrumentor"),
    ("celery", "opentelemetry.instrumentation.celery:CeleryInstrumentor"),
    ("httpx", "opentelemetry.instrumentation.httpx:HTTPXClientInstrumentor"),
    ("aiohttp", "opentelemetry.instrumentation.aiohttp_client:AioHttpClientInstrumentor"),
    ("kafka", "opentelemetry.instrumentation.kafka:KafkaInstrumentor") ]

/-- Outcome of `importlib.import_module(lib_name)` for a target library:
success, an `ImportError` (the only class the source catches there), or
any other exception raised by the module's top-level code. -/
inductive LibImport where
  | ok
  | importError
  | otherError
deriving DecidableEq, Repr

/-- Outcome of importing the instrumentor module and resolving the class
with `getattr`: the source catches `ImportError` and `AttributeError`;
any other exception from the module's top-level code propagates. -/
inductive InstrResolve where
  | ok
  | importError
  | attributeError
  | otherError
deriving DecidableEq, Repr

/-- Behaviour of one instrumentor inside the per-library
`try ... except Exception` block of `auto_instrument`: whether
constructing it (or reading `is_instrumented_by_opentelemetry`) raises,
whether it reports itself as already instrumented, and whether its
`instrument(**kwargs)` call raises. -/
structure AdapterBehavior where
  construct_raises : Bool
  already_instrumented : Bool
  instrument_raises : Bool
deriving DecidableEq, Repr

/-- The runtime environment seen by `auto_instrument` for one library:
what its import does, what resolving its instrumentor does, and how the
instrumentor behaves when applied. -/
structure LibWorld where
  lib_import : LibImport
  instr_resolve : InstrResolve
  adapter : AdapterBehavior
deriving DecidableEq, Repr

/-- Exceptions of the embedded code: `ValueError` from validation in
`init`, an exception from an external exporter/provider construction, a
flush exception from a provider's `shutdown()`, an `AttributeError`
(e.g. `.upper()` on a non-string log level), and an uncaught exception
escaping a library import during discovery. -/
inductive PyError where
  | valueError (msg : String)
  | constructionError (signal : String)
  | flushError (signal : String)
  | attributeError (what : String)
  | uncaughtImportError (lib : String)
deriving DecidableEq, Repr

/-- Per-entry record of what discovery did with one library (the spec's
Instrumentation Outcome). -/
inductive EntryOutcome where
  | skippedNotInstalled
  | skippedNoInstrumentor
  | skippedAlready
  | applied
  | failed
deriving DecidableEq, Repr

/-- Result of a discovery run: the per-entry outcomes in registry order,
the libraries appended to `instrumented`, the warning messages logged, and
the exception that escaped, if any. -/
structure DiscoveryResult where
  outcomes : List (String × EntryOutcome)
  instrumented : List String
  warnings : List String
  raised : Option PyError
deriving DecidableEq, Repr

/-- One iteration of the `auto_instrument` loop body for library `lib`
(src/observex/instruments.py lines 39-62): probe the library import
(catching only `ImportError`), resolve the instrumentor (catching
`ImportError` and `AttributeError`), then construct and apply it inside
`try ... except Exception`, which turns any adapter exception into a
`Failed to instrument` warning.  The excluded-URL patterns are forwarded
to `instrument` when accepted; they do not change which branch is taken,
so they do not appear in the outcome. -/
def instrumentEntry (w : String → LibWorld) (lib : String) :
    Except PyError (EntryOutcome × Option String) :=
  match (w lib).lib_import with
  | .importError => .ok (.skippedNotInstalled, none)
  | .otherError => .error (.uncaughtImportError lib)
  | .ok =>
    match (w lib).instr_resolve with
    | .importError => .ok (.skippedNoInstrumentor, none)
    | .attributeError => .ok (.skippedNoInstrumentor, none)
    | .otherError => .error (.uncaughtImportError lib)
    | .ok =>
      if (w lib).adapter.construct_raises then
        .ok (.failed, some ("Failed to instrument " ++ lib))
      else if (w lib).adapter.already_instrumented then
        .ok (.skippedAlready, none)
      else if (w lib).adapter.instrument_raises then
        .ok (.failed, some ("Failed to instrument " ++ lib))
      else
        .ok (.applied, none)

/-- The `for lib_name, instrumentor_path in INSTRUMENTORS.items()` loop of
`auto_instrument`, threading the accumulated result; an exception that
escapes one entry aborts the loop and propagates. -/
def discoverGo (w : String → LibWorld) (entries : List String)
    (acc : DiscoveryResult) : DiscoveryResult :=
  match entries with
  | [] => acc
  | lib :: rest =>
    match instrumentEntry w lib with
    | .error err => { acc with raised := some err }
    | .ok (out, warn) =>
      discoverGo w rest
        { acc with
          outcomes := acc.outcomes ++ [(lib, out)]
          instrumented := acc.instrumented ++ (if out = .applied then [lib] else [])
          warnings := acc.warnings ++ warn.toList }

/-- `auto_instrument(excluded_urls)` (src/observex/instruments.py): run
the loop over the whole registry.  The `excluded_urls` parameter is only
forwarded to the instrumentors and has no modelled effect on outcomes. -/
def auto_instrument (w : String → LibWorld) (excluded_urls : List String) :
    DiscoveryResult :=
  let _ := excluded_urls
  discoverGo w (INSTRUMENTORS.map Prod.fst) ⟨[], [], [], none⟩

/-- The module-level lifecycle record of src/optic/_core.py: the
`_initialized` flag and the three provider globals (`_tracer_provider`,
`_meter_provider`, `_logger_provider`); a provider object is modelled by
`some ()`, Python `None` by `none`. -/
structure CoreState where
  initialized : Bool
  tracer_provider : Option Unit
  meter_provider : Option Unit
  logger_provider : Option Unit
deriving DecidableEq, Repr

/-- The state of a fresh process: flag false, all provider globals
`None`. -/
def freshState : CoreState := ⟨false, none, none, none⟩

/-- `is_initialized()` (src/optic/_core.py): pure read of the flag. -/
def is_initialized (st : CoreState) : Bool :=
  st.initialized

/-- The side effects of `init` that the claims talk about, in the order
the source performs them. -/
inductive Effect where
  | resolveConfig
  | constructExporter (signal : String)
  | constructProvider (signal : String)
  | installLogHandler (level : Nat)
  | startSystemMetrics
  | runDiscovery
  | registerAtexit
  | flushProvider (signal : String)
deriving DecidableEq, Repr

/-- Behaviour of the external collaborators during one `init` call:
whether each OTLP exporter construction raises, the Python runtime's
`str.upper` Unicode mapping, and the runtime environment the discovery
loop sees. -/
structure World where
  trace_exporter_raises : Bool
  metric_exporter_raises : Bool
  log_exporter_raises : Bool
  str_upper : String → String
  libs : String → LibWorld

/-- A world in which no external call misbehaves: constructions succeed
and no target library is installed. -/
def quietWorld : World :=
  ⟨false, false, false, asciiUpper,
   fun _ => ⟨.importError, .importError, ⟨false, false, false⟩⟩⟩

/-- The `overrides` dict built at the top of `init`
(src/optic/_core.py lines 56-62): keyword options whose value is `None`
are dropped, then each of the three named arguments is added when truthy
(non-empty).  Python guarantees the keyword dict cannot contain the three
named parameters, so appending them last matches dict insertion order. -/
def init_overrides (api_key service_name endpoint : String)
    (kwargs : List (String × PyVal)) : List (String × PyVal) :=
  let ov := kwargs.filter (fun kv => kv.2 != PyVal.vnone)
  let ov := if api_key != "" then ov ++ [("api_key", .vstr api_key)] else ov
  let ov := if service_name != "" then ov ++ [("service_name", .vstr service_name)] else ov
  if endpoint != "" then ov ++ [("endpoint", .vstr endpoint)] else ov

/-- Validation message raised when the resolved credential is falsy. -/
def apiKeyMsg : String :=
  "Optic API key is required. Pass api_key= or set OPTIC_API_KEY env var."

/-- Validation message raised when the resolved service name is falsy. -/
def serviceNameMsg : String :=
  "Service name is required. Pass service_name= or set OPTIC_SERVICE_NAME env var."

/-- Resumption of `init` after the discovery run: an exception escaping
`auto_instrument` propagates before `_initialized = True` is reached;
otherwise the flag is set and the atexit hook registered. -/
def finishDiscovery (st : CoreState) (effs : List Effect)
    (raised : Option PyError) : CoreState × List Effect × Except PyError Unit :=
  match raised with
  | some err => (st, effs ++ [Effect.runDiscovery], .error err)
  | none =>
    ({ st with initialized := true },
     effs ++ [Effect.runDiscovery, Effect.registerAtexit], .ok ())

/-- Tail of `init` after the three provider sections
(src/optic/_core.py lines 124-140): conditionally start system metrics,
conditionally run discovery (whose escaped exception, if any, propagates
and leaves the flag unset), then set `_initialized = True` and register
the atexit hook. -/
def initTail (st : CoreState) (effs : List Effect) (cfg : OpticConfig)
    (w : World) : CoreState × List Effect × Except PyError Unit :=
  let effs := effs ++
    (if pyTruthy cfg.enable_system_metrics && pyTruthy cfg.enable_metrics then
      [Effect.startSystemMetrics] else [])
  if pyTruthy cfg.auto_instrument then
    let excluded := match cfg.excluded_urls with | .vlist xs => xs | _ => []
    finishDiscovery st effs (auto_instrument w.libs excluded).raised
  else
    ({ st with initialized := true }, effs ++ [Effect.registerAtexit], .ok ())

/-- The `if cfg.enable_logs:` section of `init` (src/optic/_core.py
lines 107-122): when logs are enabled, construct the OTLP log exporter
(which may raise), construct the `LoggerProvider` and store it in the
global, then compute the bridge-handler level with
`cfg.log_level.upper()` — an `AttributeError` when the level is not a
string, raised after the provider global is already set — and install the
handler; then continue with `initTail`. -/
def initLogs (st : CoreState) (effs : List Effect) (cfg : OpticConfig)
    (w : World) : CoreState × List Effect × Except PyError Unit :=
  if pyTruthy cfg.enable_logs && w.log_exporter_raises then
    (st, effs ++ [Effect.constructExporter "logs"],
     .error (.constructionError "logs"))
  else if pyTruthy cfg.enable_logs then
    match cfg.log_level with
    | .vstr s =>
      initTail { st with logger_provider := some () }
        (effs ++ [Effect.constructExporter "logs", Effect.constructProvider "logs",
                  Effect.installLogHandler (handlerLevel w.str_upper s)]) cfg w
    | _ =>
      ({ st with logger_provider := some () },
       effs ++ [Effect.constructExporter "logs", Effect.constructProvider "logs"],
       .error (.attributeError "upper"))
  else
    initTail st effs cfg w

/-- The `if cfg.enable_metrics:` section of `init` (src/optic/_core.py
lines 96-105): when metrics are enabled, construct the OTLP metric
exporter (which may raise), the reader and the `MeterProvider`, store the
provider global, then continue with the logs section. -/
def initMetrics (st : CoreState) (effs : List Effect) (cfg : OpticConfig)
    (w : World) : CoreState × List Effect × Except PyError Unit :=
  if pyTruthy cfg.enable_metrics && w.metric_exporter_raises then
    (st, effs ++ [Effect.constructExporter "metrics"],
     .error (.constructionError "metrics"))
  else if pyTruthy cfg.enable_metrics then
    initLogs { st with meter_provider := some () }
      (effs ++ [Effect.constructExporter "metrics", Effect.constructProvider "metrics"])
      cfg w
  else
    initLogs st effs cfg w

/-- The `if cfg.enable_traces:` section of `init` (src/optic/_core.py
lines 86-94): when traces are enabled, construct the OTLP span exporter
(which may raise), construct the `TracerProvider`, store the provider
global, then continue with the metrics section. -/
def initTraces (st : CoreState) (effs : List Effect) (cfg : OpticConfig)
    (w : World) : CoreState × List Effect × Except PyError Unit :=
  if pyTruthy cfg.enable_traces && w.trace_exporter_raises then
    (st, effs ++ [Effect.constructExporter "traces"],
     .error (.constructionError "traces"))
  else if pyTruthy cfg.enable_traces then
    initMetrics { st with tracer_provider := some () }
      (effs ++ [Effect.constructExporter "traces", Effect.constructProvider "traces"])
      cfg w
  else
    initMetrics st effs cfg w

/-- Body of `init` past the idempotency guard (src/optic/_core.py lines
55-140): resolve the config, validate credential then service name, then
run the per-signal sections in traces, metrics, logs order. -/
def initBody (st : CoreState) (cfg : OpticConfig) (w : World) :
    CoreState × List Effect × Except PyError Unit :=
  if !pyTruthy cfg.api_key then
    (st, [Effect.resolveConfig], .error (.valueError apiKeyMsg))
  else if !pyTruthy cfg.service_name then
    (st, [Effect.resolveConfig], .error (.valueError serviceNameMsg))
  else
    initTraces st [Effect.resolveConfig] cfg w

/-- `init(api_key, service_name, endpoint, **kwargs)`
(src/optic/_core.py): return immediately when already initialized,
otherwise resolve the configuration from environment plus overrides and
run the body. -/
def init (st : CoreState) (e : Env) (api_key service_name endpoint : String)
    (kwargs : List (String × PyVal)) (w : World) :
    CoreState × List Effect × Except PyError Unit :=
  if st.initialized then (st, [], .ok ())
  else
    initBody st
      (OpticConfig.from_env e (init_overrides api_key service_name endpoint kwargs)) w

/-- Behaviour of the three provider `shutdown()` calls during one
`shutdown` of the SDK: whether each owned provider's flush-and-close
raises. -/
structure FlushWorld where
  tracer_raises : Bool
  meter_raises : Bool
  logger_raises : Bool
deriving DecidableEq, Repr

/-- `shutdown()` (src/optic/_core.py lines 142-156): no-op when not
initialized; otherwise flush each truthy provider global in tracer,
meter, logger order — an exception from one flush propagates at once, so
later providers are not attempted and `_initialized = False` is never
reached — and finally reset the flag.  The provider globals are never
assigned, so they keep their values. -/
def shutdown (st : CoreState) (w : FlushWorld) :
    CoreState × List Effect × Except PyError Unit :=
  if !st.initialized then (st, [], .ok ())
  else
    if st.tracer_provider.isSome && w.tracer_raises then
      (st, [Effect.flushProvider "traces"], .error (.flushError "traces"))
    else
    let effs := if st.tracer_provider.isSome then [Effect.flushProvider "traces"] else []
    if st.meter_provider.isSome && w.meter_raises then
      (st, effs ++ [Effect.flushProvider "metrics"], .error (.flushError "metrics"))
    else
    let effs := effs ++
      (if st.meter_provider.isSome then [Effect.flushProvider "metrics"] else [])
    if st.logger_provider.isSome && w.logger_raises then
      (st, effs ++ [Effect.flushProvider "logs"], .error (.flushError "logs"))
    else
    let effs := effs ++
      (if st.logger_provider.isSome then [Effect.flushProvider "logs"] else [])
    ({ st with initialized := false }, effs, .ok ())

/-- An OTel metric observation, as produced by the host-metrics
callbacks; the value is the probed percentage divided by 100. -/
structure Observation where
  value : Rat
deriving DecidableEq, Repr

/-- The `_cpu_callback` closure of `start_system_metrics`
(src/observex/system_metrics.py): the whole body — the `Observation`
module import and the `psutil.cpu_percent` probe — runs inside
`try ... except Exception`, so a raising probe yields no observations.
The probe outcome is the percentage value or the raised exception. -/
def cpu_callback (probe : Except Unit Rat) : List Observation :=
  match probe with
  | .ok pct => [⟨pct / 100⟩]
  | .error _ => []

/-- The `_memory_callback` closure of `start_system_metrics`: same shape
as the CPU callback, probing `psutil.virtual_memory().percent`. -/
def memory_callback (probe : Except Unit Rat) : List Observation :=
  match probe with
  | .ok pct => [⟨pct / 100⟩]
  | .error _ => []

/-- The `_disk_callback` closure of `start_system_metrics`: same shape as
the CPU callback, probing `psutil.disk_usage("/").percent`. -/
def disk_callback (probe : Except Unit Rat) : List Observation :=
  match probe with
  | .ok pct => [⟨pct / 100⟩]
  | .error _ => []

/-! ## Helper lemmas about the lifecycle -/

/-- A successful `finishDiscovery` only sets the flag. -/
theorem finishDiscovery_ok {st : CoreState} {effs : List Effect}
    {r : Option PyError} {st' : CoreState} {effs' : List Effect}
    (h : finishDiscovery st effs r = (st', effs', .ok ())) :
    st' = { st with initialized := true } := by
  cases r <;> simp only [finishDiscovery, Prod.mk.injEq] at h
  · exact h.1.symm
  · exact Except.noConfusion h.2.2

/-- A failed `finishDiscovery` returns the state it was given. -/
theorem finishDiscovery_error {st : CoreState} {effs : List Effect}
    {r : Option PyError} {st' : CoreState} {effs' : List Effect} {err : PyError}
    (h : finishDiscovery st effs r = (st', effs', .error err)) :
    st' = st := by
  cases r <;> simp only [finishDiscovery, Prod.mk.injEq] at h
  · exact Except.noConfusion h.2.2
  · exact h.1.symm

/-- A successful `initTail` only sets the flag on the state it is
given. -/
theorem initTail_ok {st : CoreState} {effs : List Effect} {cfg : OpticConfig}
    {w : World} {st' : CoreState} {effs' : List Effect}
    (h : initTail st effs cfg w = (st', effs', .ok ())) :
    st' = { st with initialized := true } := by
  unfold initTail at h
  repeat' split at h
  all_goals
    first
      | exact finishDiscovery_ok h
      | (simp only [Prod.mk.injEq] at h
         exact h.1.symm)

/-- A failed `initTail` returns the state it was given. -/
theorem initTail_error_state {st : CoreState} {effs : List Effect}
    {cfg : OpticConfig} {w : World} {st' : CoreState} {effs' : List Effect}
    {err : PyError}
    (h : initTail st effs cfg w = (st', effs', .error err)) :
    st' = st := by
  unfold initTail at h
  repeat' split at h
  all_goals
    first
      | exact finishDiscovery_error h
      | (simp only [Prod.mk.injEq] at h
         exact Except.noConfusion h.2.2)

/-- A successful `initLogs` sets the flag and, when logs are enabled,
the logger provider global. -/
theorem initLogs_ok_state {st : CoreState} {effs : List Effect}
    {cfg : OpticConfig} {w : World} {st' : CoreState} {effs' : List Effect}
    (h : initLogs st effs cfg w = (st', effs', .ok ())) :
    st' = { st with
      initialized := true
      logger_provider :=
        if pyTruthy cfg.enable_logs then some () else st.logger_provider } := by
  unfold initLogs at h
  split at h
  · simp only [Prod.mk.injEq] at h
    exact Except.noConfusion h.2.2
  · split at h
    · next hL =>
      split at h
      · rw [initTail_ok h]
        simp [hL]
      all_goals
        simp only [Prod.mk.injEq] at h
        exact Except.noConfusion h.2.2
    · next hL =>
      rw [initTail_ok h]
      simp only [Bool.not_eq_true] at hL
      simp [hL]

/-- A successful `initMetrics` sets the flag and the provider globals of
the enabled signals among metrics and logs. -/
theorem initMetrics_ok_state {st : CoreState} {effs : List Effect}
    {cfg : OpticConfig} {w : World} {st' : CoreState} {effs' : List Effect}
    (h : initMetrics st effs cfg w = (st', effs', .ok ())) :
    st' = { st with
      initialized := true
      meter_provider :=
        if pyTruthy cfg.enable_metrics then some () else st.meter_provider
      logger_provider :=
        if pyTruthy cfg.enable_logs then some () else st.logger_provider } := by
  unfold initMetrics at h
  split at h
  · simp only [Prod.mk.injEq] at h
    exact Except.noConfusion h.2.2
  · split at h
    · next hM =>
      rw [initLogs_ok_state h]
      simp [hM]
    · next hM =>
      rw [initLogs_ok_state h]
      simp only [Bool.not_eq_true] at hM
      simp [hM]

/-- A successful `initTraces` sets the flag and the provider globals of
the enabled signals. -/
theorem initTraces_ok_state {st : CoreState} {effs : List Effect}
    {cfg : OpticConfig} {w : World} {st' : CoreState} {effs' : List Effect}
    (h : initTraces st effs cfg w = (st', effs', .ok ())) :
    st' = { st with
      initialized := true
      tracer_provider :=
        if pyTruthy cfg.enable_traces then some () else st.tracer_provider
      meter_provider :=
        if pyTruthy cfg.enable_metrics then some () else st.meter_provider
      logger_provider :=
        if pyTruthy cfg.enable_logs then some () else st.logger_provider } := by
  unfold initTraces at h
  split at h
  · simp only [Prod.mk.injEq] at h
    exact Except.noConfusion h.2.2
  · split at h
    · next hT =>
      rw [initMetrics_ok_state h]
      simp [hT]
    · next hT =>
      rw [initMetrics_ok_state h]
      simp only [Bool.not_eq_true] at hT
      simp [hT]

/-- A successful `initBody` ends in the state it started from, with the
flag set and, for each signal enabled in the resolved configuration, the
corresponding provider global overwritten with a fresh provider;
provider globals of disabled signals are left as they were. -/
theorem initBody_ok_state {st : CoreState} {cfg : OpticConfig} {w : World}
    {st' : CoreState} {effs : List Effect}
    (h : initBody st cfg w = (st', effs, .ok ())) :
    st' = { st with
      initialized := true
      tracer_provider :=
        if pyTruthy cfg.enable_traces then some () else st.tracer_provider
      meter_provider :=
        if pyTruthy cfg.enable_metrics then some () else st.meter_provider
      logger_provider :=
        if pyTruthy cfg.enable_logs then some () else st.logger_provider } := by
  unfold initBody at h
  split at h
  · simp only [Prod.mk.injEq] at h
    exact Except.noConfusion h.2.2
  · split at h
    · simp only [Prod.mk.injEq] at h
      exact Except.noConfusion h.2.2
    · exact initTraces_ok_state h

/-- A successful `init` leaves the flag set. -/
theorem init_ok_flag {st : CoreState} {e : Env} {a s ep : String}
    {kw : List (String × PyVal)} {w : World} {st' : CoreState}
    {effs : List Effect}
    (h : init st e a s ep kw w = (st', effs, .ok ())) :
    st'.initialized = true := by
  unfold init at h
  split at h
  · next hst =>
    simp only [Prod.mk.injEq] at h
    rw [← h.1]
    exact hst
  · rw [initBody_ok_state h]

/-- A failed `initLogs` leaves the flag unchanged. -/
theorem initLogs_error_flag {st : CoreState} {effs : List Effect}
    {cfg : OpticConfig} {w : World} {st' : CoreState} {effs' : List Effect}
    {err : PyError}
    (h : initLogs st effs cfg w = (st', effs', .error err)) :
    st'.initialized = st.initialized := by
  unfold initLogs at h
  split at h
  · simp only [Prod.mk.injEq] at h
    rw [← h.1]
  · split at h
    · split at h
      · rw [initTail_error_state h]
      all_goals
        simp only [Prod.mk.injEq] at h
        rw [← h.1]
    · rw [initTail_error_state h]

/-- A failed `initMetrics` leaves the flag unchanged. -/
theorem initMetrics_error_flag {st : CoreState} {effs : List Effect}
    {cfg : OpticConfig} {w : World} {st' : CoreState} {effs' : List Effect}
    {err : PyError}
    (h : initMetrics st effs cfg w = (st', effs', .error err)) :
    st'.initialized = st.initialized := by
  unfold initMetrics at h
  split at h
  · simp only [Prod.mk.injEq] at h
    rw [← h.1]
  · split at h
    · rw [initLogs_error_flag h]
    · rw [initLogs_error_flag h]

/-- A failed `initTraces` leaves the flag unchanged. -/
theorem initTraces_error_flag {st : CoreState} {effs : List Effect}
    {cfg : OpticConfig} {w : World} {st' : CoreState} {effs' : List Effect}
    {err : PyError}
    (h : initTraces st effs cfg w = (st', effs', .error err)) :
    st'.initialized = st.initialized := by
  unfold initTraces at h
  split at h
  · simp only [Prod.mk.injEq] at h
    rw [← h.1]
  · split at h
    · rw [initMetrics_error_flag h]
    · rw [initMetrics_error_flag h]

/-- A failed `initBody` never sets the flag: every error branch returns a
state whose flag is the caller's. -/
theorem initBody_error_flag {st : CoreState} {cfg : OpticConfig} {w : World}
    {st' : CoreState} {effs : List Effect} {err : PyError}
    (h : initBody st cfg w = (st', effs, .error err)) :
    st'.initialized = st.initialized := by
  unfold initBody at h
  split at h
  · simp only [Prod.mk.injEq] at h
    rw [← h.1]
  · split at h
    · simp only [Prod.mk.injEq] at h
      rw [← h.1]
    · exact initTraces_error_flag h

/-- A successful `shutdown` from the initialized state resets the flag
and leaves every other field of the record exactly as it was: the
provider globals are not dropped. -/
theorem shutdown_ok_state {st : CoreState} {w : FlushWorld} {st' : CoreState}
    {effs : List Effect}
    (h : shutdown st w = (st', effs, .ok ())) (hst : st.initialized = true) :
    st' = { st with initialized := false } := by
  unfold shutdown at h
  repeat' split at h
  all_goals simp only [Prod.mk.injEq] at h
  all_goals
    first
      | exact Except.noConfusion h.2.2
      | exact h.1.symm
      | simp_all

/-! ## Call sequences -/

/-- One recorded `init` call: its environment, its arguments and the
behaviour of the external collaborators during the call. -/
structure InitCall where
  env : Env
  api_key : String
  service_name : String
  endpoint : String
  kwargs : List (String × PyVal)
  world : World

/-- Run one recorded `init` call. -/
def runInit (st : CoreState) (c : InitCall) :
    CoreState × List Effect × Except PyError Unit :=
  init st c.env c.api_key c.service_name c.endpoint c.kwargs c.world

/-- Run a sequence of `init` calls, accumulating every call's effects. -/
def runInits (st : CoreState) (cs : List InitCall) : CoreState × List Effect :=
  match cs with
  | [] => (st, [])
  | c :: rest =>
    let r := runInit st c
    let r2 := runInits r.1 rest
    (r2.1, r.2.1 ++ r2.2)

/-! ## Claims -/

/-- C1: after a first `init` call succeeds, any later `init` call (and
any whole sequence of later `init` calls) returns immediately with no
effects at all — so no configuration resolution, no exporter or provider
construction, no discovery run — and leaves the observable state exactly
as the first call left it; provider construction and discovery therefore
happen exactly once, in the first call. -/
theorem init_idempotent {st0 : CoreState} {c0 : InitCall} {st1 : CoreState}
    {effs1 : List Effect}
    (h : runInit st0 c0 = (st1, effs1, .ok ())) (calls : List InitCall) :
    (∀ c : InitCall, runInit st1 c = (st1, [], .ok ())) ∧
    runInits st1 calls = (st1, []) := by
  have hflag : st1.initialized = true := init_ok_flag h
  have hstep : ∀ c : InitCall, runInit st1 c = (st1, [], .ok ()) := by
    intro c
    simp [runInit, init, hflag]
  refine ⟨hstep, ?_⟩
  induction calls with
  | nil => rfl
  | cons c rest ih =>
    simp only [runInits, hstep c, ih, List.nil_append]

/-- Witness for C1: a concrete first `init` succeeds from the fresh
state, and a sequence of two further `init` calls with different
arguments leaves the state untouched and performs no effects. -/
theorem init_idempotent_witness :
    runInits ⟨true, some (), some (), some ()⟩
      [⟨[("OPTIC_API_KEY", "z")], "x", "y", "http://alt", [], quietWorld⟩,
       ⟨[], "", "", "", [("enable_traces", .vbool false)], quietWorld⟩] =
      (⟨true, some (), some (), some ()⟩, []) :=
  (@init_idempotent freshState ⟨[], "k", "svc", "", [], quietWorld⟩
    ⟨true, some (), some (), some ()⟩
    [Effect.resolveConfig,
      Effect.constructExporter "traces", Effect.constructProvider "traces",
      Effect.constructExporter "metrics", Effect.constructProvider "metrics",
      Effect.constructExporter "logs", Effect.constructProvider "logs",
      Effect.installLogHandler 20, Effect.startSystemMetrics,
      Effect.runDiscovery, Effect.registerAtexit]
    (by rfl) _).2

/-- C3: when the resolved configuration has a falsy credential, or a
truthy credential but a falsy service name, and the SDK is not yet
initialized, `init` raises the corresponding `ValueError` having
performed only configuration resolution: the state is returned unchanged
and the effect trace contains no exporter or provider construction, no
sampler start and no discovery run. -/
theorem validation_raises_before_side_effects {st : CoreState} {e : Env}
    {a s ep : String} {kw : List (String × PyVal)} {w : World}
    (hst : st.initialized = false) :
    (pyTruthy (OpticConfig.from_env e (init_overrides a s ep kw)).api_key = false →
      init st e a s ep kw w =
        (st, [Effect.resolveConfig], .error (.valueError apiKeyMsg))) ∧
    (pyTruthy (OpticConfig.from_env e (init_overrides a s ep kw)).api_key = true →
      pyTruthy (OpticConfig.from_env e (init_overrides a s ep kw)).service_name = false →
      init st e a s ep kw w =
        (st, [Effect.resolveConfig], .error (.valueError serviceNameMsg))) := by
  constructor
  · intro h1
    simp [init, initBody, hst, h1]
  · intro h1 h2
    simp [init, initBody, hst, h1, h2]

/-- Witness for C3: with an empty environment, `init` with no credential
raises the credential `ValueError`, and `init` with a credential but no
service name raises the service-name `ValueError`; both leave the fresh
state unchanged and perform no construction. -/
theorem validation_raises_before_side_effects_witness :
    init freshState [] "" "" "" [] quietWorld =
      (freshState, [Effect.resolveConfig], .error (.valueError apiKeyMsg)) ∧
    init freshState [] "k" "" "" [] quietWorld =
      (freshState, [Effect.resolveConfig], .error (.valueError serviceNameMsg)) :=
  ⟨(validation_raises_before_side_effects (by rfl)).1 (by rfl),
   (validation_raises_before_side_effects (by rfl)).2 (by rfl) (by rfl)⟩

/-- C7 counterexample: the unqualified claim — every successful `init`
followed immediately by `shutdown` leaves `is_initialized` false — fails
when an owned provider's flush raises: here a concrete `init` succeeds,
the tracer provider's flush raises during the following `shutdown`, the
exception propagates before `_initialized = False` is reached, and
`is_initialized` still reports true. -/
theorem init_shutdown_roundtrip_counterexample :
    (init freshState [] "k" "svc" "" [] quietWorld).2.2 = .ok () ∧
    is_initialized
      (shutdown (init freshState [] "k" "svc" "" [] quietWorld).1
        ⟨true, false, false⟩).1 = true :=
  ⟨rfl, rfl⟩

/-- C7 (amended): a `shutdown` immediately after a successful `init`
makes `is_initialized` return false provided no owned provider's flush
raises — if one does, the exception propagates before the flag is reset
and `is_initialized` stays true (the counterexample above); and a
`shutdown` in the uninitialized state is an idempotent no-op that
returns the state unchanged, flushes nothing and raises nothing. -/
theorem init_shutdown_roundtrip :
    (∀ (st : CoreState) (e : Env) (a s ep : String)
       (kw : List (String × PyVal)) (w : World) (st1 : CoreState)
       (effs1 : List Effect) (fw : FlushWorld),
      init st e a s ep kw w = (st1, effs1, .ok ()) →
      fw.tracer_raises = false → fw.meter_raises = false →
      fw.logger_raises = false →
      is_initialized (shutdown st1 fw).1 = false) ∧
    (∀ (st : CoreState) (fw : FlushWorld),
      st.initialized = false → shutdown st fw = (st, [], .ok ())) := by
  constructor
  · intro st e a s ep kw w st1 effs1 fw h hf1 hf2 hf3
    have hflag : st1.initialized = true := init_ok_flag h
    simp [shutdown, is_initialized, hflag, hf1, hf2, hf3]
  · intro st fw hst
    simp [shutdown, hst]

/-- Witness for the amended C7: a concrete successful `init` followed
by a `shutdown` whose flushes complete reports uninitialized, and
`shutdown` on the fresh state is a no-op even when every flush would
raise. -/
theorem init_shutdown_roundtrip_witness :
    is_initialized
      (shutdown ⟨true, some (), some (), some ()⟩ ⟨false, false, false⟩).1 = false ∧
    shutdown freshState ⟨true, true, true⟩ = (freshState, [], .ok ()) :=
  ⟨init_shutdown_roundtrip.1 freshState [] "k" "svc" "" [] quietWorld
      ⟨true, some (), some (), some ()⟩
      [Effect.resolveConfig,
       Effect.constructExporter "traces", Effect.constructProvider "traces",
       Effect.constructExporter "metrics", Effect.constructProvider "metrics",
       Effect.constructExporter "logs", Effect.constructProvider "logs",
       Effect.installLogHandler 20, Effect.startSystemMetrics,
       Effect.runDiscovery, Effect.registerAtexit]
      ⟨false, false, false⟩ (by rfl) rfl rfl rfl,
   init_shutdown_roundtrip.2 freshState ⟨true, true, true⟩ rfl⟩

/-- C8: each of the three host-metrics observation callbacks returns the
empty observation list when its OS-metrics probe raises, instead of
propagating the exception. -/
theorem probe_failure_empty_observations :
    cpu_callback (.error ()) = [] ∧ memory_callback (.error ()) = [] ∧
    disk_callback (.error ()) = [] :=
  ⟨rfl, rfl, rfl⟩

/-- C2 counterexample: running the reference behaviour refutes the
claimed all-or-nothing lifecycle invariant at two caller-observable
points.  First, a successful `init` from the fresh state followed by a
completed `shutdown` leaves the flag false while all three provider
handles are still owned (shutdown never drops them).  Second, an `init`
whose metric-exporter construction raises leaves the flag false with the
already-constructed tracer handle still set. -/
theorem lifecycle_record_counterexample :
    (init freshState [] "k" "svc" "" [] quietWorld).2.2 = .ok () ∧
    (shutdown (init freshState [] "k" "svc" "" [] quietWorld).1
        ⟨false, false, false⟩).1 =
      ⟨false, some (), some (), some ()⟩ ∧
    (shutdown (init freshState [] "k" "svc" "" [] quietWorld).1
        ⟨false, false, false⟩).1.tracer_provider ≠ none ∧
    (init freshState [] "k" "svc" "" []
        { quietWorld with metric_exporter_raises := true }).2.2 =
      .error (.constructionError "metrics") ∧
    (init freshState [] "k" "svc" "" []
        { quietWorld with metric_exporter_raises := true }).1 =
      ⟨false, some (), none, none⟩ :=
  ⟨rfl, rfl, by decide, rfl, rfl⟩

/-- C2 (amended): after a successful `init` from the fresh state the
record is fully initialized with handles exactly for the signals enabled
in the resolved configuration; a `shutdown` that completes resets the
flag but retains every provider handle rather than dropping them; and an
`init` that raises leaves the flag unchanged (so still false), retaining
any provider handles constructed before the failure. -/
theorem lifecycle_record_amended :
    (∀ (e : Env) (a s ep : String) (kw : List (String × PyVal)) (w : World)
       (st' : CoreState) (effs : List Effect),
      init freshState e a s ep kw w = (st', effs, .ok ()) →
      st' = { initialized := true
              tracer_provider :=
                if pyTruthy (OpticConfig.from_env e
                  (init_overrides a s ep kw)).enable_traces then some () else none
              meter_provider :=
                if pyTruthy (OpticConfig.from_env e
                  (init_overrides a s ep kw)).enable_metrics then some () else none
              logger_provider :=
                if pyTruthy (OpticConfig.from_env e
                  (init_overrides a s ep kw)).enable_logs then some () else none }) ∧
    (∀ (st : CoreState) (fw : FlushWorld) (st' : CoreState) (effs : List Effect),
      st.initialized = true →
      shutdown st fw = (st', effs, .ok ()) →
      st' = { st with initialized := false }) ∧
    (∀ (st : CoreState) (e : Env) (a s ep : String) (kw : List (String × PyVal))
       (w : World) (st' : CoreState) (effs : List Effect) (err : PyError),
      init st e a s ep kw w = (st', effs, .error err) →
      st'.initialized = st.initialized) := by
  refine ⟨?_, ?_, ?_⟩
  · intro e a s ep kw w st' effs h
    have h2 : initBody freshState
        (OpticConfig.from_env e (init_overrides a s ep kw)) w =
        (st', effs, .ok ()) := h
    rw [initBody_ok_state h2]
    rfl
  · intro st fw st' effs hst h
    exact shutdown_ok_state h hst
  · intro st e a s ep kw w st' effs err h
    unfold init at h
    split at h
    · simp only [Prod.mk.injEq] at h
      exact Except.noConfusion h.2.2
    · exact initBody_error_flag h

/-- Witness for the amended C2: a completed concrete `shutdown` resets
only the flag, keeping all three handles. -/
theorem lifecycle_record_amended_witness :
    (⟨false, some (), some (), some ()⟩ : CoreState) =
      { (⟨true, some (), some (), some ()⟩ : CoreState) with initialized := false } :=
  lifecycle_record_amended.2.1 ⟨true, some (), some (), some ()⟩
    ⟨false, false, false⟩ ⟨false, some (), some (), some ()⟩
    [Effect.flushProvider "traces", Effect.flushProvider "metrics",
     Effect.flushProvider "logs"]
    rfl (by rfl)

/-- C4 counterexample: with all three providers owned and the tracer
provider's flush raising, `shutdown` raises after attempting only the
tracer flush — the meter and logger flushes are never attempted — and the
flag stays true instead of being reset. -/
theorem shutdown_flush_counterexample :
    shutdown ⟨true, some (), some (), some ()⟩ ⟨true, false, false⟩ =
      (⟨true, some (), some (), some ()⟩, [Effect.flushProvider "traces"],
       .error (.flushError "traces")) ∧
    Effect.flushProvider "metrics" ∉
      (shutdown ⟨true, some (), some (), some ()⟩ ⟨true, false, false⟩).2.1 ∧
    is_initialized
      (shutdown ⟨true, some (), some (), some ()⟩ ⟨true, false, false⟩).1 = true :=
  ⟨rfl, by decide, rfl⟩

/-- C4 (amended): when an owned provider's flush-and-close raises during
`shutdown` in the initialized state, the exception propagates to the
caller at once: providers later in the tracer → meter → logger order are
not attempted and the state, including the initialized flag, is left
unchanged. -/
theorem shutdown_flush_exception_propagates {st : CoreState} {w : FlushWorld}
    (hst : st.initialized = true) :
    (st.tracer_provider.isSome = true → w.tracer_raises = true →
      shutdown st w =
        (st, [Effect.flushProvider "traces"], .error (.flushError "traces"))) ∧
    ((st.tracer_provider.isSome && w.tracer_raises) = false →
      st.meter_provider.isSome = true → w.meter_raises = true →
      shutdown st w =
        (st, (if st.tracer_provider.isSome then [Effect.flushProvider "traces"]
          else []) ++ [Effect.flushProvider "metrics"],
         .error (.flushError "metrics"))) ∧
    ((st.tracer_provider.isSome && w.tracer_raises) = false →
      (st.meter_provider.isSome && w.meter_raises) = false →
      st.logger_provider.isSome = true → w.logger_raises = true →
      shutdown st w =
        (st, ((if st.tracer_provider.isSome then [Effect.flushProvider "traces"]
          else []) ++
          (if st.meter_provider.isSome then [Effect.flushProvider "metrics"]
            else [])) ++ [Effect.flushProvider "logs"],
         .error (.flushError "logs"))) := by
  refine ⟨?_, ?_, ?_⟩
  · intro h1 h2
    simp [shutdown, hst, h1, h2]
  · intro h1 h2 h3
    simp [shutdown, hst, h1, h2, h3]
  · intro h1 h2 h3 h4
    simp [shutdown, hst, h1, h2, h3, h4]

/-- Witness for the amended C4: with the tracer owned, no meter, and the
logger's flush raising, `shutdown` attempts the tracer and logger
flushes, then propagates the logger exception with the flag still set. -/
theorem shutdown_flush_exception_propagates_witness :
    shutdown ⟨true, some (), none, some ()⟩ ⟨false, false, true⟩ =
      (⟨true, some (), none, some ()⟩,
       ([Effect.flushProvider "traces"] ++ []) ++ [Effect.flushProvider "logs"],
       .error (.flushError "logs")) :=
  (shutdown_flush_exception_propagates rfl).2.2 rfl rfl rfl rfl

/-- C5 counterexample: in a runtime environment where importing `flask`
raises an exception that is not an `ImportError` (top-level module code
can raise anything), the `except ImportError` probe of `auto_instrument`
does not catch it: the exception propagates to the caller and none of
the remaining registry entries is processed. -/
theorem discovery_raises_counterexample :
    (auto_instrument
      (fun l => if l = "flask"
        then ⟨.otherError, .importError, ⟨false, false, false⟩⟩
        else ⟨.importError, .importError, ⟨false, false, false⟩⟩) []).raised =
      some (.uncaughtImportError "flask") ∧
    (auto_instrument
      (fun l => if l = "flask"
        then ⟨.otherError, .importError, ⟨false, false, false⟩⟩
        else ⟨.importError, .importError, ⟨false, false, false⟩⟩) []).outcomes =
      [] :=
  ⟨rfl, rfl⟩

/-- An entry whose library import and instrumentor resolution fail only
in the ways the source catches yields an outcome instead of escaping,
and a failed outcome carries the warning naming the library. -/
theorem instrumentEntry_ok {w : String → LibWorld} {lib : String}
    (h1 : (w lib).lib_import ≠ .otherError)
    (h2 : (w lib).instr_resolve ≠ .otherError) :
    ∃ out warn, instrumentEntry w lib = .ok (out, warn) ∧
      (out = .failed → warn = some ("Failed to instrument " ++ lib)) := by
  unfold instrumentEntry
  cases hi : (w lib).lib_import with
  | importError => exact ⟨.skippedNotInstalled, none, rfl, by simp⟩
  | otherError => exact absurd hi h1
  | ok =>
    cases hr : (w lib).instr_resolve with
    | importError => exact ⟨.skippedNoInstrumentor, none, rfl, by simp⟩
    | attributeError => exact ⟨.skippedNoInstrumentor, none, rfl, by simp⟩
    | otherError => exact absurd hr h2
    | ok =>
      by_cases hc : (w lib).adapter.construct_raises
      · exact ⟨.failed, some ("Failed to instrument " ++ lib), by simp [hc],
          fun _ => rfl⟩
      · by_cases ha : (w lib).adapter.already_instrumented
        · exact ⟨.skippedAlready, none, by simp [hc, ha], by simp⟩
        · by_cases hr2 : (w lib).adapter.instrument_raises
          · exact ⟨.failed, some ("Failed to instrument " ++ lib),
              by simp [hc, ha, hr2], fun _ => rfl⟩
          · exact ⟨.applied, none, by simp [hc, ha, hr2], by simp⟩

/-- Invariant of the discovery loop: from an accumulator that has not
raised and whose failed outcomes already carry their warnings, running
entries none of which raises a foreign exception yields a result that
has not raised, processes exactly the given entries in order after the
accumulated ones, and keeps a warning for every failed outcome. -/
theorem discoverGo_isolation {w : String → LibWorld} {entries : List String}
    (h : ∀ lib ∈ entries, (w lib).lib_import ≠ .otherError ∧
      (w lib).instr_resolve ≠ .otherError)
    (acc : DiscoveryResult)
    (hraised : acc.raised = none)
    (hwarn : ∀ lib out, (lib, out) ∈ acc.outcomes → out = .failed →
      ("Failed to instrument " ++ lib) ∈ acc.warnings) :
    (discoverGo w entries acc).raised = none ∧
    (discoverGo w entries acc).outcomes.map Prod.fst =
      acc.outcomes.map Prod.fst ++ entries ∧
    (∀ lib out, (lib, out) ∈ (discoverGo w entries acc).outcomes →
      out = .failed →
      ("Failed to instrument " ++ lib) ∈ (discoverGo w entries acc).warnings) := by
  induction entries generalizing acc with
  | nil =>
    refine ⟨hraised, by simp [discoverGo], ?_⟩
    simpa [discoverGo] using hwarn
  | cons lib rest ih =>
    obtain ⟨out, warn, heq, hfail⟩ :=
      instrumentEntry_ok (h lib (by simp)).1 (h lib (by simp)).2
    simp only [discoverGo, heq]
    have hrest : ∀ l ∈ rest, (w l).lib_import ≠ .otherError ∧
        (w l).instr_resolve ≠ .otherError :=
      fun l hl => h l (List.mem_cons_of_mem _ hl)
    have step := ih hrest
      { acc with
        outcomes := acc.outcomes ++ [(lib, out)]
        instrumented := acc.instrumented ++ (if out = .applied then [lib] else [])
        warnings := acc.warnings ++ warn.toList }
      hraised
      (by
        intro l o hmem hfo
        rcases List.mem_append.mp hmem with hold | hnew
        · exact List.mem_append_left _ (hwarn l o hold hfo)
        · simp only [List.mem_singleton] at hnew
          obtain ⟨rfl, rfl⟩ := Prod.mk.injEq .. ▸ hnew
          rw [hfail hfo]
          exact List.mem_append_right _ (by simp))
    refine ⟨step.1, ?_, step.2.2⟩
    rw [step.2.1]
    simp

/-- C5 (amended): provided every registry library's import failure is an
`ImportError` and every instrumentor resolution failure is an
`ImportError` or `AttributeError` — the only exception classes the
probes catch — `auto_instrument` never raises to its caller, every
registry entry is processed in order, and any exception thrown while
constructing or applying one entry's adapter only marks that entry
failed with a warning naming the library.  An import that raises any
other exception class escapes (see the counterexample). -/
theorem discovery_failure_isolation {w : String → LibWorld}
    {ex : List String}
    (h : ∀ lib ∈ INSTRUMENTORS.map Prod.fst,
      (w lib).lib_import ≠ .otherError ∧ (w lib).instr_resolve ≠ .otherError) :
    (auto_instrument w ex).raised = none ∧
    (auto_instrument w ex).outcomes.map Prod.fst = INSTRUMENTORS.map Prod.fst ∧
    (∀ lib out, (lib, out) ∈ (auto_instrument w ex).outcomes → out = .failed →
      ("Failed to instrument " ++ lib) ∈ (auto_instrument w ex).warnings) := by
  have step := discoverGo_isolation h ⟨[], [], [], none⟩ rfl (by simp)
  simpa [auto_instrument] using step

/-- Witness for the amended C5: with every library installed and every
adapter raising on application, a concrete discovery run completes
without raising, processes all thirteen entries, and logs a warning for
each. -/
theorem discovery_failure_isolation_witness :
    (auto_instrument (fun _ => ⟨.ok, .ok, ⟨false, false, true⟩⟩)
      ["health"]).raised = none :=
  (discovery_failure_isolation (by decide)).1

/-! ## Configuration field access -/

/-- The names of the fourteen `OpticConfig` dataclass fields (the keys
`hasattr` accepts in the override loop). -/
def configFields : List String :=
  ["api_key", "service_name", "endpoint", "environment", "service_version",
   "auto_instrument", "enable_traces", "enable_metrics", "enable_logs",
   "enable_system_metrics", "system_metrics_interval_sec",
   "export_interval_ms", "log_level", "excluded_urls"]

/-- `getattr(cfg, k)` restricted to the configuration fields: `some` of
the field's value for a field name, `none` for any other key. -/
def getField (c : OpticConfig) (k : String) : Option PyVal :=
  if k = "api_key" then some c.api_key
  else if k = "service_name" then some c.service_name
  else if k = "endpoint" then some c.endpoint
  else if k = "environment" then some c.environment
  else if k = "service_version" then some c.service_version
  else if k = "auto_instrument" then some c.auto_instrument
  else if k = "enable_traces" then some c.enable_traces
  else if k = "enable_metrics" then some c.enable_metrics
  else if k = "enable_logs" then some c.enable_logs
  else if k = "enable_system_metrics" then some c.enable_system_metrics
  else if k = "system_metrics_interval_sec" then some c.system_metrics_interval_sec
  else if k = "export_interval_ms" then some c.export_interval_ms
  else if k = "log_level" then some c.log_level
  else if k = "excluded_urls" then some c.excluded_urls
  else none

/-- `setattr` with any other key preserves the `api_key` field. -/
theorem setattr_preserves_api_key {c : OpticConfig} {k : String} {v : PyVal}
    (h : k ≠ "api_key") :
    (setattr c k v).api_key = c.api_key := by
  unfold setattr
  simp only [apply_ite (OpticConfig.api_key)]
  simp only [if_neg h, ite_self]

/-- `setattr` with any other key preserves the `service_name` field. -/
theorem setattr_preserves_service_name {c : OpticConfig} {k : String} {v : PyVal}
    (h : k ≠ "service_name") :
    (setattr c k v).service_name = c.service_name := by
  unfold setattr
  simp only [apply_ite (OpticConfig.service_name)]
  simp only [if_neg h, ite_self]

/-- `setattr` with any other key preserves the `endpoint` field. -/
theorem setattr_preserves_endpoint {c : OpticConfig} {k : String} {v : PyVal}
    (h : k ≠ "endpoint") :
    (setattr c k v).endpoint = c.endpoint := by
  unfold setattr
  simp only [apply_ite (OpticConfig.endpoint)]
  simp only [if_neg h, ite_self]

/-- `setattr` with any other key preserves the `environment` field. -/
theorem setattr_preserves_environment {c : OpticConfig} {k : String} {v : PyVal}
    (h : k ≠ "environment") :
    (setattr c k v).environment = c.environment := by
  unfold setattr
  simp only [apply_ite (OpticConfig.environment)]
  simp only [if_neg h, ite_self]

/-- `setattr` with any other key preserves the `service_version` field. -/
theorem setattr_preserves_service_version {c : OpticConfig} {k : String} {v : PyVal}
    (h : k ≠ "service_version") :
    (setattr c k v).service_version = c.service_version := by
  unfold setattr
  simp only [apply_ite (OpticConfig.service_version)]
  simp only [if_neg h, ite_self]

/-- `setattr` with any other key preserves the `auto_instrument` field. -/
theorem setattr_preserves_auto_instrument {c : OpticConfig} {k : String} {v : PyVal}
    (h : k ≠ "auto_instrument") :
    (setattr c k v).auto_instrument = c.auto_instrument := by
  unfold setattr
  simp only [apply_ite (OpticConfig.auto_instrument)]
  simp only [if_neg h, ite_self]

/-- `setattr` with any other key preserves the `enable_traces` field. -/
theorem setattr_preserves_enable_traces {c : OpticConfig} {k : String} {v : PyVal}
    (h : k ≠ "enable_traces") :
    (setattr c k v).enable_traces = c.enable_traces := by
  unfold setattr
  simp only [apply_ite (OpticConfig.enable_traces)]
  simp only [if_neg h, ite_self]

/-- `setattr` with any other key preserves the `enable_metrics` field. -/
theorem setattr_preserves_enable_metrics {c : OpticConfig} {k : String} {v : PyVal}
    (h : k ≠ "enable_metrics") :
    (setattr c k v).enable_metrics = c.enable_metrics := by
  unfold setattr
  simp only [apply_ite (OpticConfig.enable_metrics)]
  simp only [if_neg h, ite_self]

/-- `setattr` with any other key preserves the `enable_logs` field. -/
theorem setattr_preserves_enable_logs {c : OpticConfig} {k : String} {v : PyVal}
    (h : k ≠ "enable_logs") :
    (setattr c k v).enable_logs = c.enable_logs := by
  unfold setattr
  simp only [apply_ite (OpticConfig.enable_logs)]
  simp only [if_neg h, ite_self]

/-- `setattr` with any other key preserves the `enable_system_metrics` field. -/
theorem setattr_preserves_enable_system_metrics {c : OpticConfig} {k : String} {v : PyVal}
    (h : k ≠ "enable_system_metrics") :
    (setattr c k v).enable_system_metrics = c.enable_system_metrics := by
  unfold setattr
  simp only [apply_ite (OpticConfig.enable_system_metrics)]
  simp only [if_neg h, ite_self]

/-- `setattr` with any other key preserves the `system_metrics_interval_sec` field. -/
theorem setattr_preserves_system_metrics_interval_sec {c : OpticConfig} {k : String} {v : PyVal}
    (h : k ≠ "system_metrics_interval_sec") :
    (setattr c k v).system_metrics_interval_sec = c.system_metrics_interval_sec := by
  unfold setattr
  simp only [apply_ite (OpticConfig.system_metrics_interval_sec)]
  simp only [if_neg h, ite_self]

/-- `setattr` with any other key preserves the `export_interval_ms` field. -/
theorem setattr_preserves_export_interval_ms {c : OpticConfig} {k : String} {v : PyVal}
    (h : k ≠ "export_interval_ms") :
    (setattr c k v).export_interval_ms = c.export_interval_ms := by
  unfold setattr
  simp only [apply_ite (OpticConfig.export_interval_ms)]
  simp only [if_neg h, ite_self]

/-- `setattr` with any other key preserves the `log_level` field. -/
theorem setattr_preserves_log_level {c : OpticConfig} {k : String} {v : PyVal}
    (h : k ≠ "log_level") :
    (setattr c k v).log_level = c.log_level := by
  unfold setattr
  simp only [apply_ite (OpticConfig.log_level)]
  simp only [if_neg h, ite_self]

/-- `setattr` with any other key preserves the `excluded_urls` field. -/
theorem setattr_preserves_excluded_urls {c : OpticConfig} {k : String} {v : PyVal}
    (h : k ≠ "excluded_urls") :
    (setattr c k v).excluded_urls = c.excluded_urls := by
  unfold setattr
  simp only [apply_ite (OpticConfig.excluded_urls)]
  simp only [if_neg h, ite_self]

/-- Setting one key leaves every other key's field untouched. -/
theorem getField_setattr_ne {c : OpticConfig} {k1 k2 : String} {v : PyVal}
    (h : k1 ≠ k2) :
    getField (setattr c k1 v) k2 = getField c k2 := by
  by_cases e1 : k2 = "api_key"
  · subst e1
    show some (setattr c k1 v).api_key = some c.api_key
    rw [setattr_preserves_api_key h]
  · by_cases e2 : k2 = "service_name"
    · subst e2
      show some (setattr c k1 v).service_name = some c.service_name
      rw [setattr_preserves_service_name h]
    · by_cases e3 : k2 = "endpoint"
      · subst e3
        show some (setattr c k1 v).endpoint = some c.endpoint
        rw [setattr_preserves_endpoint h]
      · by_cases e4 : k2 = "environment"
        · subst e4
          show some (setattr c k1 v).environment = some c.environment
          rw [setattr_preserves_environment h]
        · by_cases e5 : k2 = "service_version"
          · subst e5
            show some (setattr c k1 v).service_version = some c.service_version
            rw [setattr_preserves_service_version h]
          · by_cases e6 : k2 = "auto_instrument"
            · subst e6
              show some (setattr c k1 v).auto_instrument = some c.auto_instrument
              rw [setattr_preserves_auto_instrument h]
            · by_cases e7 : k2 = "enable_traces"
              · subst e7
                show some (setattr c k1 v).enable_traces = some c.enable_traces
                rw [setattr_preserves_enable_traces h]
              · by_cases e8 : k2 = "enable_metrics"
                · subst e8
                  show some (setattr c k1 v).enable_metrics = some c.enable_metrics
                  rw [setattr_preserves_enable_metrics h]
                · by_cases e9 : k2 = "enable_logs"
                  · subst e9
                    show some (setattr c k1 v).enable_logs = some c.enable_logs
                    rw [setattr_preserves_enable_logs h]
                  · by_cases e10 : k2 = "enable_system_metrics"
                    · subst e10
                      show some (setattr c k1 v).enable_system_metrics = some c.enable_system_metrics
                      rw [setattr_preserves_enable_system_metrics h]
                    · by_cases e11 : k2 = "system_metrics_interval_sec"
                      · subst e11
                        show some (setattr c k1 v).system_metrics_interval_sec = some c.system_metrics_interval_sec
                        rw [setattr_preserves_system_metrics_interval_sec h]
                      · by_cases e12 : k2 = "export_interval_ms"
                        · subst e12
                          show some (setattr c k1 v).export_interval_ms = some c.export_interval_ms
                          rw [setattr_preserves_export_interval_ms h]
                        · by_cases e13 : k2 = "log_level"
                          · subst e13
                            show some (setattr c k1 v).log_level = some c.log_level
                            rw [setattr_preserves_log_level h]
                          · by_cases e14 : k2 = "excluded_urls"
                            · subst e14
                              show some (setattr c k1 v).excluded_urls = some c.excluded_urls
                              rw [setattr_preserves_excluded_urls h]
                            · simp only [getField, if_neg e1, if_neg e2, if_neg e3, if_neg e4, if_neg e5, if_neg e6, if_neg e7, if_neg e8, if_neg e9, if_neg e10, if_neg e11, if_neg e12, if_neg e13, if_neg e14]

/-- Setting a field key reads back the set value. -/
theorem getField_setattr_self {c : OpticConfig} {k : String} {v : PyVal}
    (hk : k ∈ configFields) :
    getField (setattr c k v) k = some v := by
  fin_cases hk <;> rfl

/-- Applying a list of overrides that never mentions key `k` leaves
`k`'s field untouched. -/
theorem getField_foldl_not_mentioned {ov : List (String × PyVal)}
    {c : OpticConfig} {k : String} (h : ∀ v, (k, v) ∉ ov) :
    getField (ov.foldl (fun c kv => setattr c kv.1 kv.2) c) k = getField c k := by
  induction ov generalizing c with
  | nil => rfl
  | cons kv rest ih =>
    have hk : kv.1 ≠ k := by
      intro heq
      exact h kv.2 (by simp [← heq])
    simp only [List.foldl_cons]
    rw [ih (fun v hv => h v (List.mem_cons_of_mem _ hv)), getField_setattr_ne hk]

/-- An override list ending in `(k, v)` resolves `k`'s field to `v`. -/
theorem getField_foldl_last {ov : List (String × PyVal)} {c : OpticConfig}
    {k : String} {v : PyVal} (hk : k ∈ configFields) :
    getField ((ov ++ [(k, v)]).foldl (fun c kv => setattr c kv.1 kv.2) c) k =
      some v := by
  rw [List.foldl_append]
  simp only [List.foldl_cons, List.foldl_nil]
  exact getField_setattr_self hk

/-- Overrides that never mention key `k` resolve `k` exactly as an empty
override list would. -/
theorem from_env_not_mentioned {e : Env} {ov : List (String × PyVal)}
    {k : String} (h : ∀ v, (k, v) ∉ ov) :
    getField (OpticConfig.from_env e ov) k =
      getField (OpticConfig.from_env e []) k :=
  getField_foldl_not_mentioned h

/-- An override list ending in `(k, v)` makes `from_env` resolve `k`'s
field to `v`. -/
theorem from_env_last_override {e : Env} {ov : List (String × PyVal)}
    {k : String} {v : PyVal} (hk : k ∈ configFields) :
    getField (OpticConfig.from_env e (ov ++ [(k, v)])) k = some v :=
  getField_foldl_last hk

/-- Appending override entries that never mention key `k` does not
change how `k` resolves. -/
theorem from_env_append_not_mentioned {e : Env}
    {l1 l2 : List (String × PyVal)} {k : String}
    (h : ∀ v, (k, v) ∉ l2) :
    getField (OpticConfig.from_env e (l1 ++ l2)) k =
      getField (OpticConfig.from_env e l1) k := by
  show getField (List.foldl _ _ (l1 ++ l2)) k = _
  rw [List.foldl_append]
  exact getField_foldl_not_mentioned h

/-- A truthy named `api_key` argument resolves the `api_key` field to
its value, whatever the environment, the keyword options and the other
named arguments. -/
theorem override_api_key_wins {e : Env} {a s ep : String}
    {kw : List (String × PyVal)} (ha : a ≠ "") :
    getField (OpticConfig.from_env e (init_overrides a s ep kw)) "api_key" =
      some (.vstr a) := by
  have ha' : (a != "") = true := by simpa using ha
  simp only [init_overrides]
  rw [if_pos ha']
  by_cases hs : (s != "") = true <;> by_cases hep : (ep != "") = true
  · rw [if_pos hs, if_pos hep,
      from_env_append_not_mentioned (by simp),
      from_env_append_not_mentioned (by simp)]
    exact from_env_last_override (by decide)
  · rw [if_pos hs, if_neg hep, from_env_append_not_mentioned (by simp)]
    exact from_env_last_override (by decide)
  · rw [if_neg hs, if_pos hep, from_env_append_not_mentioned (by simp)]
    exact from_env_last_override (by decide)
  · rw [if_neg hs, if_neg hep]
    exact from_env_last_override (by decide)

/-- A truthy named `service_name` argument resolves the `service_name`
field to its value. -/
theorem override_service_name_wins {e : Env} {a s ep : String}
    {kw : List (String × PyVal)} (hs : s ≠ "") :
    getField (OpticConfig.from_env e (init_overrides a s ep kw)) "service_name" =
      some (.vstr s) := by
  have hs' : (s != "") = true := by simpa using hs
  simp only [init_overrides]
  rw [if_pos hs']
  by_cases hep : (ep != "") = true
  · rw [if_pos hep, from_env_append_not_mentioned (by simp)]
    exact from_env_last_override (by decide)
  · rw [if_neg hep]
    exact from_env_last_override (by decide)

/-- A truthy named `endpoint` argument resolves the `endpoint` field to
its value. -/
theorem override_endpoint_wins {e : Env} {a s ep : String}
    {kw : List (String × PyVal)} (hep : ep ≠ "") :
    getField (OpticConfig.from_env e (init_overrides a s ep kw)) "endpoint" =
      some (.vstr ep) := by
  have hep' : (ep != "") = true := by simpa using hep
  simp only [init_overrides]
  rw [if_pos hep']
  exact from_env_last_override (by decide)

/-- A keyword override list ending in a non-`None` entry for field `k`
resolves `k` to that entry's value. -/
theorem kwargs_override_wins {e : Env} {kw : List (String × PyVal)}
    {k : String} {v : PyVal} (hk : k ∈ configFields) (hv : v ≠ .vnone) :
    getField (OpticConfig.from_env e
      (init_overrides "" "" "" (kw ++ [(k, v)]))) k = some v := by
  have hfilt : init_overrides "" "" "" (kw ++ [(k, v)]) =
      (kw.filter (fun kv => kv.2 != PyVal.vnone)) ++ [(k, v)] := by
    show (kw ++ [(k, v)]).filter (fun kv => kv.2 != PyVal.vnone) = _
    rw [List.filter_append]
    congr 1
    have hv' : (v != PyVal.vnone) = true := by simpa using hv
    simp [List.filter, hv']
  rw [hfilt]
  exact from_env_last_override hk

/-- C6: for every configuration field independently, the resolved value
follows the priority order: a non-empty (truthy) explicit call-site
override wins over the SDK-specific `OPTIC_*` environment variable,
which wins over the generic `OTEL_*` fallback variable (for the three
fields that have one), which wins over the hard-coded default; fields
with no environment variable fall back from an explicit override
directly to their dataclass default. -/
theorem config_priority_order :
    (∀ (e : Env) (a s ep : String) (kw : List (String × PyVal)), a ≠ "" →
      getField (OpticConfig.from_env e (init_overrides a s ep kw)) "api_key" =
        some (.vstr a)) ∧
    (∀ (e : Env) (a s ep : String) (kw : List (String × PyVal)), s ≠ "" →
      getField (OpticConfig.from_env e (init_overrides a s ep kw)) "service_name" =
        some (.vstr s)) ∧
    (∀ (e : Env) (a s ep : String) (kw : List (String × PyVal)), ep ≠ "" →
      getField (OpticConfig.from_env e (init_overrides a s ep kw)) "endpoint" =
        some (.vstr ep)) ∧
    (∀ (e : Env) (kw : List (String × PyVal)) (k : String) (v : PyVal),
      k ∈ configFields → v ≠ .vnone →
      getField (OpticConfig.from_env e
        (init_overrides "" "" "" (kw ++ [(k, v)]))) k = some v) ∧
    (∀ (e : Env) (ov : List (String × PyVal)) (x : String),
      (∀ v, ("api_key", v) ∉ ov) → List.lookup "OPTIC_API_KEY" e = some x →
      getField (OpticConfig.from_env e ov) "api_key" = some (.vstr x)) ∧
    (∀ (e : Env) (ov : List (String × PyVal)) (x : String),
      (∀ v, ("api_key", v) ∉ ov) → List.lookup "OPTIC_API_KEY" e = none →
      List.lookup "OTEL_API_KEY" e = some x →
      getField (OpticConfig.from_env e ov) "api_key" = some (.vstr x)) ∧
    (∀ (e : Env) (ov : List (String × PyVal)),
      (∀ v, ("api_key", v) ∉ ov) → List.lookup "OPTIC_API_KEY" e = none →
      List.lookup "OTEL_API_KEY" e = none →
      getField (OpticConfig.from_env e ov) "api_key" = some (.vstr "")) ∧
    (∀ (e : Env) (ov : List (String × PyVal)) (x : String),
      (∀ v, ("service_name", v) ∉ ov) → List.lookup "OPTIC_SERVICE_NAME" e = some x →
      getField (OpticConfig.from_env e ov) "service_name" = some (.vstr x)) ∧
    (∀ (e : Env) (ov : List (String × PyVal)) (x : String),
      (∀ v, ("service_name", v) ∉ ov) → List.lookup "OPTIC_SERVICE_NAME" e = none →
      List.lookup "OTEL_SERVICE_NAME" e = some x →
      getField (OpticConfig.from_env e ov) "service_name" = some (.vstr x)) ∧
    (∀ (e : Env) (ov : List (String × PyVal)),
      (∀ v, ("service_name", v) ∉ ov) → List.lookup "OPTIC_SERVICE_NAME" e = none →
      List.lookup "OTEL_SERVICE_NAME" e = none →
      getField (OpticConfig.from_env e ov) "service_name" = some (.vstr "")) ∧
    (∀ (e : Env) (ov : List (String × PyVal)) (x : String),
      (∀ v, ("endpoint", v) ∉ ov) → List.lookup "OPTIC_ENDPOINT" e = some x →
      getField (OpticConfig.from_env e ov) "endpoint" = some (.vstr x)) ∧
    (∀ (e : Env) (ov : List (String × PyVal)) (x : String),
      (∀ v, ("endpoint", v) ∉ ov) → List.lookup "OPTIC_ENDPOINT" e = none →
      List.lookup "OTEL_EXPORTER_OTLP_ENDPOINT" e = some x →
      getField (OpticConfig.from_env e ov) "endpoint" = some (.vstr x)) ∧
    (∀ (e : Env) (ov : List (String × PyVal)),
      (∀ v, ("endpoint", v) ∉ ov) → List.lookup "OPTIC_ENDPOINT" e = none →
      List.lookup "OTEL_EXPORTER_OTLP_ENDPOINT" e = none →
      getField (OpticConfig.from_env e ov) "endpoint" = some (.vstr "http://localhost:8080")) ∧
    (∀ (e : Env) (ov : List (String × PyVal)) (x : String),
      (∀ v, ("environment", v) ∉ ov) → List.lookup "OPTIC_ENVIRONMENT" e = some x →
      getField (OpticConfig.from_env e ov) "environment" = some (.vstr x)) ∧
    (∀ (e : Env) (ov : List (String × PyVal)),
      (∀ v, ("environment", v) ∉ ov) → List.lookup "OPTIC_ENVIRONMENT" e = none →
      getField (OpticConfig.from_env e ov) "environment" = some (.vstr "local")) ∧
    (∀ (e : Env) (ov : List (String × PyVal)) (x : String),
      (∀ v, ("service_version", v) ∉ ov) → List.lookup "OPTIC_SERVICE_VERSION" e = some x →
      getField (OpticConfig.from_env e ov) "service_version" = some (.vstr x)) ∧
    (∀ (e : Env) (ov : List (String × PyVal)),
      (∀ v, ("service_version", v) ∉ ov) → List.lookup "OPTIC_SERVICE_VERSION" e = none →
      getField (OpticConfig.from_env e ov) "service_version" = some (.vstr "")) ∧
    (∀ (e : Env) (ov : List (String × PyVal)) (k : String),
      k ∈ ["auto_instrument", "enable_traces", "enable_metrics", "enable_logs",
        "enable_system_metrics", "system_metrics_interval_sec",
        "export_interval_ms", "log_level", "excluded_urls"] →
      (∀ v, (k, v) ∉ ov) →
      getField (OpticConfig.from_env e ov) k = getField defaultConfig k) := by
  refine ⟨?_, ?_, ?_, ?_, ?_, ?_, ?_, ?_, ?_, ?_, ?_, ?_, ?_, ?_, ?_, ?_, ?_, ?_⟩
  · intro e a s ep kw ha
    exact override_api_key_wins ha
  · intro e a s ep kw hs
    exact override_service_name_wins hs
  · intro e a s ep kw hep
    exact override_endpoint_wins hep
  · intro e kw k v hk hv
    exact kwargs_override_wins hk hv
  · intro e ov x hov hx
    rw [from_env_not_mentioned hov]
    show some (PyVal.vstr (getenv e "OPTIC_API_KEY" (getenv e "OTEL_API_KEY" ""))) = some (PyVal.vstr x)
    unfold getenv
    rw [hx]
  · intro e ov x hov hx hy
    rw [from_env_not_mentioned hov]
    show some (PyVal.vstr (getenv e "OPTIC_API_KEY" (getenv e "OTEL_API_KEY" ""))) = some (PyVal.vstr x)
    unfold getenv
    rw [hx, hy]
  · intro e ov hov hx hy
    rw [from_env_not_mentioned hov]
    show some (PyVal.vstr (getenv e "OPTIC_API_KEY" (getenv e "OTEL_API_KEY" ""))) = some (PyVal.vstr "")
    unfold getenv
    rw [hx, hy]
  · intro e ov x hov hx
    rw [from_env_not_mentioned hov]
    show some (PyVal.vstr (getenv e "OPTIC_SERVICE_NAME" (getenv e "OTEL_SERVICE_NAME" ""))) = some (PyVal.vstr x)
    unfold getenv
    rw [hx]
  · intro e ov x hov hx hy
    rw [from_env_not_mentioned hov]
    show some (PyVal.vstr (getenv e "OPTIC_SERVICE_NAME" (getenv e "OTEL_SERVICE_NAME" ""))) = some (PyVal.vstr x)
    unfold getenv
    rw [hx, hy]
  · intro e ov hov hx hy
    rw [from_env_not_mentioned hov]
    show some (PyVal.vstr (getenv e "OPTIC_SERVICE_NAME" (getenv e "OTEL_SERVICE_NAME" ""))) = some (PyVal.vstr "")
    unfold getenv
    rw [hx, hy]
  · intro e ov x hov hx
    rw [from_env_not_mentioned hov]
    show some (PyVal.vstr (getenv e "OPTIC_ENDPOINT" (getenv e "OTEL_EXPORTER_OTLP_ENDPOINT" "http://localhost:8080"))) = some (PyVal.vstr x)
    unfold getenv
    rw [hx]
  · intro e ov x hov hx hy
    rw [from_env_not_mentioned hov]
    show some (PyVal.vstr (getenv e "OPTIC_ENDPOINT" (getenv e "OTEL_EXPORTER_OTLP_ENDPOINT" "http://localhost:8080"))) = some (PyVal.vstr x)
    unfold getenv
    rw [hx, hy]
  · intro e ov hov hx hy
    rw [from_env_not_mentioned hov]
    show some (PyVal.vstr (getenv e "OPTIC_ENDPOINT" (getenv e "OTEL_EXPORTER_OTLP_ENDPOINT" "http://localhost:8080"))) = some (PyVal.vstr "http://localhost:8080")
    unfold getenv
    rw [hx, hy]
  · intro e ov x hov hx
    rw [from_env_not_mentioned hov]
    show some (PyVal.vstr (getenv e "OPTIC_ENVIRONMENT" "local")) = some (PyVal.vstr x)
    unfold getenv
    rw [hx]
  · intro e ov hov hx
    rw [from_env_not_mentioned hov]
    show some (PyVal.vstr (getenv e "OPTIC_ENVIRONMENT" "local")) = some (PyVal.vstr "local")
    unfold getenv
    rw [hx]
  · intro e ov x hov hx
    rw [from_env_not_mentioned hov]
    show some (PyVal.vstr (getenv e "OPTIC_SERVICE_VERSION" "")) = some (PyVal.vstr x)
    unfold getenv
    rw [hx]
  · intro e ov hov hx
    rw [from_env_not_mentioned hov]
    show some (PyVal.vstr (getenv e "OPTIC_SERVICE_VERSION" "")) = some (PyVal.vstr "")
    unfold getenv
    rw [hx]
  · intro e ov k hk hov
    rw [from_env_not_mentioned hov]
    fin_cases hk <;> rfl

/-- Witness for C6: concrete resolutions exercising every level of the
`api_key` priority chain, a falsy keyword override, and a defaulted
field. -/
theorem config_priority_order_witness :
    getField (OpticConfig.from_env [("OPTIC_API_KEY", "env")]
      (init_overrides "explicit" "svc" "" [])) "api_key" =
      some (.vstr "explicit") ∧
    getField (OpticConfig.from_env [("OPTIC_API_KEY", "sdk"), ("OTEL_API_KEY", "gen")]
      []) "api_key" = some (.vstr "sdk") ∧
    getField (OpticConfig.from_env [("OTEL_API_KEY", "gen")] []) "api_key" =
      some (.vstr "gen") ∧
    getField (OpticConfig.from_env [] []) "api_key" = some (.vstr "") ∧
    getField (OpticConfig.from_env []
      (init_overrides "" "" "" ([] ++ [("enable_traces", .vbool false)])))
      "enable_traces" = some (.vbool false) ∧
    getField (OpticConfig.from_env [] []) "export_interval_ms" =
      getField defaultConfig "export_interval_ms" := by
  obtain ⟨c1, c2, c3, c4, c5, c6, c7, c8, c9, c10, c11, c12, c13, c14, c15,
    c16, c17, c18⟩ := config_priority_order
  exact ⟨c1 [("OPTIC_API_KEY", "env")] "explicit" "svc" "" [] (by decide),
    c5 [("OPTIC_API_KEY", "sdk"), ("OTEL_API_KEY", "gen")] [] "sdk" (by simp) rfl,
    c6 [("OTEL_API_KEY", "gen")] [] "gen" (by simp) rfl rfl,
    c7 [] [] (by simp) rfl rfl,
    c4 [] [] "enable_traces" (.vbool false) (by decide) (by decide),
    c18 [] [] "export_interval_ms" (by decide) (by simp)⟩

/-- C9: a keyword option passed to `init` with value `None` is discarded
before configuration resolution — the override list and hence the
resolved configuration are identical to those without the option, so its
field takes its environment-variable or default value — whereas any
non-`None` keyword value, including falsy ones such as `False`, `0` or
`[]`, is applied as an override of its field. -/
theorem none_kwargs_dropped_falsy_applied :
    (∀ (a s ep : String) (kw1 kw2 : List (String × PyVal)) (k : String),
      init_overrides a s ep (kw1 ++ (k, PyVal.vnone) :: kw2) =
        init_overrides a s ep (kw1 ++ kw2)) ∧
    (∀ (e : Env) (a s ep : String) (kw1 kw2 : List (String × PyVal)) (k : String),
      OpticConfig.from_env e (init_overrides a s ep (kw1 ++ (k, PyVal.vnone) :: kw2)) =
        OpticConfig.from_env e (init_overrides a s ep (kw1 ++ kw2))) ∧
    (∀ (e : Env) (kw : List (String × PyVal)) (k : String) (v : PyVal),
      k ∈ configFields → v ≠ PyVal.vnone →
      getField (OpticConfig.from_env e
        (init_overrides "" "" "" (kw ++ [(k, v)]))) k = some v) := by
  have h1 : ∀ (a s ep : String) (kw1 kw2 : List (String × PyVal)) (k : String),
      init_overrides a s ep (kw1 ++ (k, PyVal.vnone) :: kw2) =
        init_overrides a s ep (kw1 ++ kw2) := by
    intro a s ep kw1 kw2 k
    simp only [init_overrides]
    rw [show (kw1 ++ (k, PyVal.vnone) :: kw2).filter (fun kv => kv.2 != PyVal.vnone) =
        (kw1 ++ kw2).filter (fun kv => kv.2 != PyVal.vnone) from by
      simp [List.filter_append]]
  exact ⟨h1, fun e a s ep kw1 kw2 k => by rw [h1],
    fun e kw k v hk hv => kwargs_override_wins hk hv⟩

/-- Witness for C9: a `None`-valued `environment` option resolves as if
absent, and an empty-list `excluded_urls` option is applied. -/
theorem none_kwargs_dropped_falsy_applied_witness :
    init_overrides "" "" "" ([] ++ ("environment", PyVal.vnone) :: []) =
      init_overrides "" "" "" ([] ++ []) ∧
    getField (OpticConfig.from_env []
      (init_overrides "" "" "" ([] ++ [("excluded_urls", PyVal.vlist [])])))
      "excluded_urls" = some (PyVal.vlist []) :=
  ⟨none_kwargs_dropped_falsy_applied.1 "" "" "" [] [] "environment",
   none_kwargs_dropped_falsy_applied.2.2 [] [] "excluded_urls"
     (PyVal.vlist []) (by decide) (by decide)⟩

/-- C10: whatever Unicode uppercase mapping `upper` the Python runtime
supplies for `str.upper`, a configured log-level string whose
upper-cased form is none of DEBUG, INFO, WARNING, ERROR makes the
bridge handler installed by `init` use the INFO level (20) — the
`dict.get` default — and the matching is case-insensitive: the handler
level depends only on the upper-cased form of the string, so strings
that upper-case alike (such as `warning` and `WARNING`) resolve to the
same level. -/
theorem log_level_fallback_info :
    (∀ (upper : String → String) (s : String),
      upper s ∉ ["DEBUG", "INFO", "WARNING", "ERROR"] →
      handlerLevel upper s = 20) ∧
    (∀ (upper : String → String) (s t : String),
      upper s = upper t → handlerLevel upper s = handlerLevel upper t) := by
  constructor
  · intro upper s h
    simp only [List.mem_cons, List.not_mem_nil, or_false, not_or] at h
    obtain ⟨h1, h2, h3, h4⟩ := h
    have b1 : (upper s == "DEBUG") = false := beq_eq_false_iff_ne.mpr h1
    have b2 : (upper s == "INFO") = false := beq_eq_false_iff_ne.mpr h2
    have b3 : (upper s == "WARNING") = false := beq_eq_false_iff_ne.mpr h3
    have b4 : (upper s == "ERROR") = false := beq_eq_false_iff_ne.mpr h4
    simp [handlerLevel, log_levels, List.lookup, b1, b2, b3, b4]
  · intro upper s t h
    unfold handlerLevel
    rw [h]

/-- Witness for C10, instantiating `upper` at the ASCII fragment of
Python `str.upper` (exact on these ASCII inputs): the unknown level
`trace` falls back to INFO (20), and lower-case `warning` resolves like
`WARNING`. -/
theorem log_level_fallback_info_witness :
    handlerLevel asciiUpper "trace" = 20 ∧
    handlerLevel asciiUpper "warning" = handlerLevel asciiUpper "WARNING" :=
  ⟨log_level_fallback_info.1 asciiUpper "trace" (by decide),
   log_level_fallback_info.2 asciiUpper "warning" "WARNING" (by decide)⟩

end Optic




